import Mathlib

/-!
Verification of the SDP3x-Arduino driver (`src/SDPSensors.h`).

The header file declares the data model (Model, TempCompensation,
PressureRange), the bus constants (addresses, opcodes, product IDs, scale
factors) and the 256-entry CRC-8 lookup table. The member-function bodies
live in an implementation file that is not part of `src/`; where a claim
depends on them, the corresponding definition is modelled from the spec and
marked as such in its doc comment.
-/

namespace SDP

/-- CRC-8 lookup table, copied bit-for-bit from `SDPSensor::CRC_LUT`
    (src/SDPSensors.h lines 229-247). -/
def CRC_LUT : List Nat :=
  [ 0x00, 0x31, 0x62, 0x53, 0xC4, 0xF5, 0xA6, 0x97, 0xB9, 0x88, 0xDB, 0xEA, 0x7D, 0x4C, 0x1F,
    0x2E, 0x43, 0x72, 0x21, 0x10, 0x87, 0xB6, 0xE5, 0xD4, 0xFA, 0xCB, 0x98, 0xA9, 0x3E, 0x0F,
    0x5C, 0x6D, 0x86, 0xB7, 0xE4, 0xD5, 0x42, 0x73, 0x20, 0x11, 0x3F, 0x0E, 0x5D, 0x6C, 0xFB,
    0xCA, 0x99, 0xA8, 0xC5, 0xF4, 0xA7, 0x96, 0x01, 0x30, 0x63, 0x52, 0x7C, 0x4D, 0x1E, 0x2F,
    0xB8, 0x89, 0xDA, 0xEB, 0x3D, 0x0C, 0x5F, 0x6E, 0xF9, 0xC8, 0x9B, 0xAA, 0x84, 0xB5, 0xE6,
    0xD7, 0x40, 0x71, 0x22, 0x13, 0x7E, 0x4F, 0x1C, 0x2D, 0xBA, 0x8B, 0xD8, 0xE9, 0xC7, 0xF6,
    0xA5, 0x94, 0x03, 0x32, 0x61, 0x50, 0xBB, 0x8A, 0xD9, 0xE8, 0x7F, 0x4E, 0x1D, 0x2C, 0x02,
    0x33, 0x60, 0x51, 0xC6, 0xF7, 0xA4, 0x95, 0xF8, 0xC9, 0x9A, 0xAB, 0x3C, 0x0D, 0x5E, 0x6F,
    0x41, 0x70, 0x23, 0x12, 0x85, 0xB4, 0xE7, 0xD6, 0x7A, 0x4B, 0x18, 0x29, 0xBE, 0x8F, 0xDC,
    0xED, 0xC3, 0xF2, 0xA1, 0x90, 0x07, 0x36, 0x65, 0x54, 0x39, 0x08, 0x5B, 0x6A, 0xFD, 0xCC,
    0x9F, 0xAE, 0x80, 0xB1, 0xE2, 0xD3, 0x44, 0x75, 0x26, 0x17, 0xFC, 0xCD, 0x9E, 0xAF, 0x38,
    0x09, 0x5A, 0x6B, 0x45, 0x74, 0x27, 0x16, 0x81, 0xB0, 0xE3, 0xD2, 0xBF, 0x8E, 0xDD, 0xEC,
    0x7B, 0x4A, 0x19, 0x28, 0x06, 0x37, 0x64, 0x55, 0xC2, 0xF3, 0xA0, 0x91, 0x47, 0x76, 0x25,
    0x14, 0x83, 0xB2, 0xE1, 0xD0, 0xFE, 0xCF, 0x9C, 0xAD, 0x3A, 0x0B, 0x58, 0x69, 0x04, 0x35,
    0x66, 0x57, 0xC0, 0xF1, 0xA2, 0x93, 0xBD, 0x8C, 0xDF, 0xEE, 0x79, 0x48, 0x1B, 0x2A, 0xC1,
    0xF0, 0xA3, 0x92, 0x05, 0x34, 0x67, 0x56, 0x78, 0x49, 0x1A, 0x2B, 0xBC, 0x8D, 0xDE, 0xEF,
    0x82, 0xB3, 0xE0, 0xD1, 0x46, 0x77, 0x24, 0x15, 0x3B, 0x0A, 0x59, 0x68, 0xFF, 0xCE, 0x9D,
    0xAC ]

/-- Table lookup `CRC_LUT[x]` for a byte index. -/
def lutAt (x : Nat) : Nat := CRC_LUT.getD x 0

/-- Modelled from the spec: the per-word checksum fold of
    `SDPSensor::readData` (implementation file not in src/):
    `crc := 0xFF; crc := CRC_LUT[crc ^ b1]; crc := CRC_LUT[crc ^ b2]`
    (spec section 4.1, claimed fold order left-to-right over the two data
    bytes starting from the initial value 0xFF). -/
def compute (b1 b2 : Nat) : Nat := lutAt (lutAt (0xFF ^^^ b1) ^^^ b2)

/-- Modelled from the spec: `verify(word, checksum)` fails iff the computed
    value differs from the transmitted checksum byte (spec section 4.1). -/
def verify (b1 b2 c : Nat) : Bool := compute b1 b2 == c

/-- One shift step of the from-first-principles CRC-8 with polynomial 0x31,
    truncated to a byte (uint8_t arithmetic). -/
def crcStep (s : Nat) : Nat :=
  (if s.testBit 7 then (s * 2) ^^^ 0x31 else s * 2) % 256

/-- Eight polynomial shift steps: processing of one message byte after it has
    been xored into the running remainder. -/
def crcByte (s : Nat) : Nat :=
  crcStep (crcStep (crcStep (crcStep (crcStep (crcStep (crcStep (crcStep s)))))))

/-- From-first-principles CRC-8 of a 2-byte word: polynomial 0x31, initial
    value 0xFF, no input/output reflection, no final XOR. -/
def crc8 (b1 b2 : Nat) : Nat := crcByte (crcByte (0xFF ^^^ b1) ^^^ b2)

theorem crcStep_lt (s : Nat) : crcStep s < 256 := Nat.mod_lt _ (by norm_num)

theorem crcByte_lt (s : Nat) : crcByte s < 256 := crcStep_lt _

theorem xor_lt_256 {a b : Nat} (ha : a < 256) (hb : b < 256) : a ^^^ b < 256 := by
  have h := Nat.xor_lt_two_pow (n := 8) (by simpa using ha) (by simpa using hb)
  simpa using h

set_option maxRecDepth 4096 in
/-- Every table entry agrees with the generated CRC-8 table entry. -/
theorem lut_correct : ∀ i < 256, lutAt i = crcByte i := by decide

theorem mod_two_pow_xor (a b n : Nat) : (a ^^^ b) % 2^n = (a % 2^n) ^^^ (b % 2^n) := by
  apply Nat.eq_of_testBit_eq
  intro i
  simp [Nat.testBit_mod_two_pow, Nat.testBit_xor]
  by_cases h : i < n <;> simp [h]

theorem mul_two_xor (a b : Nat) : (a ^^^ b) * 2 = (a * 2) ^^^ (b * 2) := by
  have h : ∀ x : Nat, x * 2 = x <<< 1 := by
    intro x
    rw [Nat.shiftLeft_eq]
  rw [h, h, h]
  apply Nat.eq_of_testBit_eq
  intro i
  simp [Nat.testBit_shiftLeft, Nat.testBit_xor]
  by_cases hi : 1 ≤ i <;> simp [hi]

theorem xor_swap (x y z : Nat) : x ^^^ (y ^^^ z) = y ^^^ (x ^^^ z) := by
  rw [← Nat.xor_assoc, Nat.xor_comm x y, Nat.xor_assoc]

theorem crcStep_eq (s : Nat) :
    crcStep s = ((s * 2) ^^^ (if s.testBit 7 then 0x31 else 0)) % 256 := by
  unfold crcStep
  by_cases h : s.testBit 7 <;> simp [h]

/-- The CRC shift step is GF(2)-linear. -/
theorem crcStep_linear (a b : Nat) :
    crcStep (a ^^^ b) = crcStep a ^^^ crcStep b := by
  rw [crcStep_eq, crcStep_eq, crcStep_eq]
  have h256 : (256 : Nat) = 2 ^ 8 := by norm_num
  rw [h256, ← mod_two_pow_xor]
  congr 1
  rw [mul_two_xor, Nat.testBit_xor]
  cases ha : a.testBit 7 <;> cases hb : b.testBit 7 <;>
    simp [Nat.xor_assoc, xor_swap, Nat.xor_comm, Nat.xor_cancel_left]

/-- Eight shift steps are GF(2)-linear. -/
theorem crcByte_linear (a b : Nat) :
    crcByte (a ^^^ b) = crcByte a ^^^ crcByte b := by
  simp [crcByte, crcStep_linear]

/-- The table-driven fold agrees with the from-first-principles CRC-8 on any
    pair of bytes. -/
theorem compute_eq_crc8 : ∀ b1 < 256, ∀ b2 < 256, compute b1 b2 = crc8 b1 b2 := by
  intro b1 h1 b2 h2
  have hx : 0xFF ^^^ b1 < 256 := xor_lt_256 (by norm_num) h1
  have h3 := lut_correct _ hx
  have hy : crcByte (0xFF ^^^ b1) ^^^ b2 < 256 := xor_lt_256 (crcByte_lt _) h2
  have h4 := lut_correct _ hy
  simp [compute, crc8, h3, h4]

/-- Flipping bits of the first data byte shifts the CRC by a constant that
    depends only on the error pattern. -/
theorem crc8_flip_first (b1 b2 e : Nat) :
    crc8 (b1 ^^^ e) b2 = crc8 b1 b2 ^^^ crcByte (crcByte e) := by
  unfold crc8
  rw [← Nat.xor_assoc, crcByte_linear (0xFF ^^^ b1) e]
  rw [Nat.xor_assoc, Nat.xor_comm (crcByte e) b2, ← Nat.xor_assoc]
  rw [crcByte_linear]

/-- Flipping bits of the second data byte shifts the CRC by a constant that
    depends only on the error pattern. -/
theorem crc8_flip_second (b1 b2 e : Nat) :
    crc8 b1 (b2 ^^^ e) = crc8 b1 b2 ^^^ crcByte e := by
  unfold crc8
  rw [← Nat.xor_assoc, crcByte_linear]

set_option maxRecDepth 4096 in
theorem crcByte2_pow_ne : ∀ i < 8, crcByte (crcByte (2^i)) ≠ 0 := by decide

set_option maxRecDepth 4096 in
theorem crcByte_pow_ne : ∀ i < 8, crcByte (2^i) ≠ 0 := by decide

theorem xor_ne_self {x d : Nat} (hd : d ≠ 0) : x ^^^ d ≠ x := by
  intro h
  apply hd
  have := congrArg (fun y => x ^^^ y) h
  simpa [Nat.xor_cancel_left, Nat.xor_self] using this

theorem two_pow_lt_256 {i : Nat} (hi : i < 8) : 2^i < 256 := by
  calc 2^i < 2^8 := Nat.pow_lt_pow_right (by norm_num) hi
  _ = 256 := by norm_num

/-- C1: for every 2-byte input, folding the 256-entry CRC_LUT (init 0xFF,
    `crc := table[crc XOR byte]`, left-to-right) equals the from-first-
    principles CRC-8 with polynomial 0x31, init 0xFF, no reflection, no
    final XOR; and every table entry equals the generated table entry. -/
theorem crc_lut_matches_first_principles :
    (∀ b1 < 256, ∀ b2 < 256, compute b1 b2 = crc8 b1 b2) ∧
    (∀ i < 256, lutAt i = crcByte i) :=
  ⟨compute_eq_crc8, lut_correct⟩

/-- Witness for C1 at a concrete input. -/
theorem crc_lut_matches_first_principles_witness :
    compute 0x12 0x34 = crc8 0x12 0x34 :=
  crc_lut_matches_first_principles.1 0x12 (by decide) 0x34 (by decide)

/-- C2: `verify(word, compute(word))` holds for every 2-byte word, and any
    single-bit flip of either data byte or of an accepted checksum byte makes
    `verify` return false. -/
theorem verify_detects_single_bit_errors :
    ∀ b1 < 256, ∀ b2 < 256,
      verify b1 b2 (compute b1 b2) = true ∧
      ∀ c : Nat, verify b1 b2 c = true →
        ∀ i < 8, verify (b1 ^^^ 2^i) b2 c = false ∧
                 verify b1 (b2 ^^^ 2^i) c = false ∧
                 verify b1 b2 (c ^^^ 2^i) = false := by
  intro b1 h1 b2 h2
  constructor
  · simp [verify]
  · intro c hc i hi
    have hcc : compute b1 b2 = c := by simpa [verify] using hc
    have hbridge := compute_eq_crc8 b1 h1 b2 h2
    have hei : 2^i < 256 := two_pow_lt_256 hi
    have hpos : (2:Nat)^i ≠ 0 := by positivity
    refine ⟨?_, ?_, ?_⟩
    · have hb1e : b1 ^^^ 2^i < 256 := xor_lt_256 h1 hei
      have : compute (b1 ^^^ 2^i) b2 = crc8 b1 b2 ^^^ crcByte (crcByte (2^i)) := by
        rw [compute_eq_crc8 _ hb1e _ h2, crc8_flip_first]
      have hne : compute (b1 ^^^ 2^i) b2 ≠ c := by
        rw [this, ← hcc, hbridge]
        exact xor_ne_self (crcByte2_pow_ne i hi)
      simpa [verify] using hne
    · have hb2e : b2 ^^^ 2^i < 256 := xor_lt_256 h2 hei
      have : compute b1 (b2 ^^^ 2^i) = crc8 b1 b2 ^^^ crcByte (2^i) := by
        rw [compute_eq_crc8 _ h1 _ hb2e, crc8_flip_second]
      have hne : compute b1 (b2 ^^^ 2^i) ≠ c := by
        rw [this, ← hcc, hbridge]
        exact xor_ne_self (crcByte_pow_ne i hi)
      simpa [verify] using hne
    · have hne : compute b1 b2 ≠ c ^^^ 2^i := by
        rw [hcc]
        intro h
        exact xor_ne_self (x := c) hpos h.symm
      simpa [verify] using hne

/-- Witness for C2 at a concrete word and checksum. -/
theorem verify_detects_single_bit_errors_witness :
    verify 0xAB 0xCD (compute 0xAB 0xCD) = true ∧
    verify (0xAB ^^^ 2^0) 0xCD (compute 0xAB 0xCD) = false :=
  ⟨(verify_detects_single_bit_errors 0xAB (by decide) 0xCD (by decide)).1,
   ((verify_detects_single_bit_errors 0xAB (by decide) 0xCD (by decide)).2
      (compute 0xAB 0xCD) (by decide) 0 (by decide)).1⟩

/-! ## Data model (src/SDPSensors.h) -/

/-- Sensor hardware families, from the `Model` enum. -/
inductive Model
  | SDP31_500
  | SDP32_125
  | SDP800_500
  | SDP810_500
  | SDP801_500
  | SDP811_500
  | SDP800_125
  | SDP810_125
deriving DecidableEq, Repr

/-- Temperature compensation modes, from the `TempCompensation` enum. -/
inductive TempCompensation
  | MassFlow
  | DiffPressure
deriving DecidableEq, Repr

/-- Pressure ranges, from the `PressureRange` enum
    (`SDP_NA, SDP_125, SDP_250, SDP_500`). -/
inductive PressureRange
  | SDP_NA
  | SDP_125
  | SDP_250
  | SDP_500
deriving DecidableEq, Repr

/-- Valid bus addresses, from the header constants. -/
def Address1 : Nat := 0x21
def Address2 : Nat := 0x22
def Address3 : Nat := 0x23
def Address5 : Nat := 0x25
def Address6 : Nat := 0x26

/-- 2-byte command opcodes, from the header constants. -/
def StartContMassFlowAvg : List Nat     := [0x36, 0x03]
def StartContMassFlow : List Nat        := [0x36, 0x08]
def StartContDiffPressureAvg : List Nat := [0x36, 0x15]
def StartContDiffPressure : List Nat    := [0x36, 0x1E]
def StopCont : List Nat                 := [0x3F, 0xF9]
def TrigMassFlow : List Nat             := [0x36, 0x24]
def TrigMassFlowStretch : List Nat      := [0x37, 0x26]
def TrigDiffPressure : List Nat         := [0x36, 0x2F]
def TrigDiffPressureStretch : List Nat  := [0x37, 0x2D]
def ReadInfo1 : List Nat                := [0x36, 0x7C]
def ReadInfo2 : List Nat                := [0xE1, 0x02]
def SoftReset : List Nat                := [0x00, 0x06]

/-- Product identifiers, from the preprocessor constants of the header (the first one is spelled
    `SPD31_500_PID` in the source). -/
def SPD31_500_PID : Nat  := 0x03010100
def SDP32_125_PID : Nat  := 0x03010200
def SDP800_500_PID : Nat := 0x03020100
def SDP810_500_PID : Nat := 0x03020A00
def SDP801_500_PID : Nat := 0x03020400
def SDP811_500_PID : Nat := 0x03020D00
def SDP800_125_PID : Nat := 0x03020200
def SDP810_125_PID : Nat := 0x03020B00

/-- Model-specific scale constants, from the header. -/
def DiffScale_500Pa : Nat := 60
def DiffScale_125Pa : Nat := 240
def SDP3X_TempScale : Nat := 200

/-- The product ID constant belonging to each model, pairing the preprocessor constants of the header with the `Model` enum variant of the same name. -/
def pidOf : Model → Nat
  | .SDP31_500  => SPD31_500_PID
  | .SDP32_125  => SDP32_125_PID
  | .SDP800_500 => SDP800_500_PID
  | .SDP810_500 => SDP810_500_PID
  | .SDP801_500 => SDP801_500_PID
  | .SDP811_500 => SDP811_500_PID
  | .SDP800_125 => SDP800_125_PID
  | .SDP810_125 => SDP810_125_PID

/-- Modelled from the spec: the product-ID → Model resolution performed by
    `begin()` (implementation file not in src/). Each of the 8 fixed 32-bit
    constants maps to the Model variant of the same name; any other value is
    the UnknownProductID error, never a silent default (spec sections 3
    and 4.2). -/
def pidToModel (pid : Nat) : Option Model :=
  if pid = SPD31_500_PID then some .SDP31_500
  else if pid = SDP32_125_PID then some .SDP32_125
  else if pid = SDP800_500_PID then some .SDP800_500
  else if pid = SDP810_500_PID then some .SDP810_500
  else if pid = SDP801_500_PID then some .SDP801_500
  else if pid = SDP811_500_PID then some .SDP811_500
  else if pid = SDP800_125_PID then some .SDP800_125
  else if pid = SDP810_125_PID then some .SDP810_125
  else none

/-- Modelled from the spec: the nominal pressure range implied by each model
    (the suffix of the enum variant name in the source). -/
def modelToRange : Model → PressureRange
  | .SDP31_500  => .SDP_500
  | .SDP32_125  => .SDP_125
  | .SDP800_500 => .SDP_500
  | .SDP810_500 => .SDP_500
  | .SDP801_500 => .SDP_500
  | .SDP811_500 => .SDP_500
  | .SDP800_125 => .SDP_125
  | .SDP810_125 => .SDP_125

/-- Modelled from the spec: pressure scale is `DiffScale_125Pa` (240) for the
    125 Pa models and `DiffScale_500Pa` (60) for the 500 Pa models. -/
def getPressureScale (m : Model) : Nat :=
  match modelToRange m with
  | .SDP_125 => DiffScale_125Pa
  | _ => DiffScale_500Pa

/-- Modelled from the spec: temperature scale is the fixed constant
    `SDP3X_TempScale` (200) for every model. -/
def getTemperatureScale : Nat := SDP3X_TempScale

/-! ## Transport and session model -/

/-- A bus action issued by the driver: either a write of a byte sequence to a
    device address, or a read of a byte count from a device address. -/
inductive BusAction
  | write (addr : Nat) (bytes : List Nat)
  | read (addr : Nat) (count : Nat)
deriving DecidableEq, Repr

/-- The external transport adapter: whether a write is fully acknowledged, and
    what bytes a read returns (`none` models a byte-count mismatch). -/
structure Transport where
  writeOk : Nat → List Nat → Bool
  readBytes : Nat → Nat → Option (List Nat)

/-- The session state machine values (spec section 3). -/
inductive SessionState
  | Uninitialized
  | Idle
  | ContinuousAveraging
  | ContinuousLastValue
deriving DecidableEq, Repr

/-- The sensor session: configured address and compensation mode, current
    state, and the detected model (`none` before successful begin). -/
structure Session where
  addr : Nat
  comp : TempCompensation
  state : SessionState
  number : Option Model
deriving DecidableEq

/-- Modelled from the spec: `writeCommand` sends the 2-byte opcode and
    succeeds iff all ACKs are received. -/
def writeCommand (t : Transport) (addr : Nat) (cmd : List Nat) :
    Bool × List BusAction :=
  (t.writeOk addr cmd, [.write addr cmd])

/-- Check every 3-byte triplet (2 data bytes + checksum) of a response. -/
def checkWords : List Nat → Bool
  | [] => true
  | b1 :: b2 :: c :: rest => verify b1 b2 c && checkWords rest
  | _ => false

/-- Extract the 16-bit big-endian data words, dropping the checksum bytes. -/
def dataWords : List Nat → List Nat
  | b1 :: b2 :: _ :: rest => (b1 * 256 + b2) :: dataWords rest
  | _ => []

/-- Modelled from the spec: `readData` reads `3 * words` bytes and succeeds
    iff the byte count is exact and the checksum of every word validates. -/
def readData (t : Transport) (addr : Nat) (words : Nat) :
    Option (List Nat) × List BusAction :=
  match t.readBytes addr (3 * words) with
  | none => (none, [.read addr (3 * words)])
  | some bs =>
    if bs.length = 3 * words ∧ checkWords bs = true then
      (some bs, [.read addr (3 * words)])
    else (none, [.read addr (3 * words)])

/-- `readData` always issues exactly one read of `3 * words` bytes. -/
theorem readData_snd (t : Transport) (addr words : Nat) :
    (readData t addr words).2 = [.read addr (3 * words)] := by
  unfold readData
  rcases t.readBytes addr (3 * words) with _ | bs
  · rfl
  · by_cases hc : bs.length = 3 * words ∧ checkWords bs = true
    · simp [hc]
    · simp [hc]

/-- Raw signed 16-bit interpretation of a data word. -/
def toInt16 (w : Nat) : Int :=
  if w < 0x8000 then (w : Int) else (w : Int) - 0x10000

/-- A decoded measurement: raw pressure always, raw temperature and scale
    only when requested. -/
structure Measurement where
  pressure : Int
  temp : Option Int
  scale : Option Int
deriving DecidableEq, Repr

/-- Number of words requested from the bus by `readMeasurement`. -/
def wordCount (wantTemp wantScale : Bool) : Nat :=
  if wantScale then 3 else if wantTemp then 2 else 1

/-- Modelled from the spec: `readMeasurement` reads 1, 2 or 3 words depending
    on which optional outputs are requested, validates every word, and on any
    failure produces no output at all. -/
def readMeasurement (t : Transport) (s : Session) (wantTemp wantScale : Bool) :
    Option Measurement × List BusAction :=
  match readData t s.addr (wordCount wantTemp wantScale) with
  | (none, as) => (none, as)
  | (some bs, as) =>
    let ws := dataWords bs
    (some { pressure := toInt16 (ws.getD 0 0),
            temp := if wantTemp then some (toInt16 (ws.getD 1 0)) else none,
            scale := if wantScale then some (toInt16 (ws.getD 2 0)) else none },
     as)

/-- Modelled from the spec: `readPressure` reads a single word, validates it,
    and returns the raw differential pressure. -/
def readPressure (t : Transport) (s : Session) : Option Int × List BusAction :=
  match readData t s.addr 1 with
  | (none, as) => (none, as)
  | (some bs, as) => (some (toInt16 ((dataWords bs).getD 0 0)), as)

/-- Modelled from the spec: `readProductID` writes the two read-product-info
    opcodes as two separate writes, then reads 6 words (18 bytes) when the
    serial number is wanted and 2 words (6 bytes) otherwise; the product ID
    is the first two data words and the serial number the last four. -/
def readProductID (t : Transport) (s : Session) (wantSerial : Bool) :
    Option (Nat × Option Nat) × List BusAction :=
  let (ok1, a1) := writeCommand t s.addr ReadInfo1
  if ok1 then
    let (ok2, a2) := writeCommand t s.addr ReadInfo2
    if ok2 then
      match readData t s.addr (if wantSerial then 6 else 2) with
      | (none, as) => (none, a1 ++ a2 ++ as)
      | (some bs, as) =>
        let ws := dataWords bs
        let pid := ws.getD 0 0 * 0x10000 + ws.getD 1 0
        let serial :=
          if wantSerial then
            some (ws.getD 2 0 * 2^48 + ws.getD 3 0 * 2^32 +
                  ws.getD 4 0 * 2^16 + ws.getD 5 0)
          else none
        (some (pid, serial), a1 ++ a2 ++ as)
    else (none, a1 ++ a2)
  else (none, a1)

/-- Modelled from the spec: `begin` resolves the product ID to a model and
    returns its pressure range; any failure returns `SDP_NA` with the session
    unchanged (no model resolved). -/
def begin (t : Transport) (s : Session) :
    PressureRange × Session × List BusAction :=
  match readProductID t s false with
  | (none, as) => (.SDP_NA, s, as)
  | (some (pid, _), as) =>
    match pidToModel pid with
    | none => (.SDP_NA, s, as)
    | some m => (modelToRange m, { s with number := some m, state := .Idle }, as)

/-- Modelled from the spec: `stopContinuous` writes the stop-continuous
    opcode and transitions the state back to Idle; calling it outside a
    continuous state has no effect beyond issuing the write. -/
def stopContinuous (t : Transport) (s : Session) :
    Bool × Session × List BusAction :=
  let (ok, as) := writeCommand t s.addr StopCont
  (ok, if ok then { s with state := .Idle } else s, as)

/-- Modelled from the spec: `reset` writes the soft-reset opcode to the
    broadcast bus address 0x00, not to the configured address of the session. -/
def reset (t : Transport) (_s : Session) : Bool × List BusAction :=
  writeCommand t 0x00 SoftReset

/-! ## Concrete sessions and transports used by witnesses -/

/-- A fresh session at the default SDP3x address, before initialization. -/
def initSession : Session :=
  { addr := Address1, comp := .DiffPressure, state := .Uninitialized,
    number := none }

/-- A session that has completed initialization and sits Idle. -/
def idleSession : Session :=
  { addr := Address1, comp := .DiffPressure, state := .Idle,
    number := some .SDP31_500 }

/-- A transport that acknowledges every write. -/
def ackTransport : Transport :=
  { writeOk := fun _ _ => true, readBytes := fun _ _ => none }

/-- Product-info response frame for PID 0x03010100 with all-zero serial and
    correct checksums. -/
def infoBytes : List Nat :=
  [0x03, 0x01, compute 0x03 0x01, 0x01, 0x00, compute 0x01 0x00,
   0, 0, compute 0 0, 0, 0, compute 0 0, 0, 0, compute 0 0, 0, 0, compute 0 0]

/-- A transport that acknowledges writes and serves `infoBytes`. -/
def infoTransport : Transport :=
  { writeOk := fun _ _ => true,
    readBytes := fun _ n => some (infoBytes.take n) }

/-- A transport whose measurement frame carries a wrong checksum byte. -/
def badCrcTransport : Transport :=
  { writeOk := fun _ _ => true,
    readBytes := fun _ _ => some [0x03, 0x01, 0x00] }

/-- A transport serving one valid measurement word (raw value 0x0301). -/
def measTransport : Transport :=
  { writeOk := fun _ _ => true,
    readBytes := fun _ n => some ([0x03, 0x01, compute 0x03 0x01].take n) }

/-! ## Claim theorems C3 - C10 -/

/-- C3: the product-ID → Model resolution maps each of the 8 fixed constants
    to the Model variant of the same name (hence is total and injective on
    them), and yields the UnknownProductID error (`none`) on every other
    value, never a silent default. -/
theorem pid_resolution_total_injective :
    (∀ m : Model, pidToModel (pidOf m) = some m) ∧
    (∀ pid : Nat, (∀ m : Model, pid ≠ pidOf m) → pidToModel pid = none) := by
  constructor
  · intro m
    cases m <;> decide
  · intro pid h
    have g1 : ¬ pid = SPD31_500_PID := h .SDP31_500
    have g2 : ¬ pid = SDP32_125_PID := h .SDP32_125
    have g3 : ¬ pid = SDP800_500_PID := h .SDP800_500
    have g4 : ¬ pid = SDP810_500_PID := h .SDP810_500
    have g5 : ¬ pid = SDP801_500_PID := h .SDP801_500
    have g6 : ¬ pid = SDP811_500_PID := h .SDP811_500
    have g7 : ¬ pid = SDP800_125_PID := h .SDP800_125
    have g8 : ¬ pid = SDP810_125_PID := h .SDP810_125
    unfold pidToModel
    rw [if_neg g1, if_neg g2, if_neg g3, if_neg g4, if_neg g5, if_neg g6,
        if_neg g7, if_neg g8]

/-- Witness for C3: an unknown PID resolves to the error case. -/
theorem pid_resolution_total_injective_witness :
    pidToModel 0xDEADBEEF = none ∧ pidToModel SPD31_500_PID = some .SDP31_500 :=
  ⟨pid_resolution_total_injective.2 0xDEADBEEF (by intro m; cases m <;> decide),
   pid_resolution_total_injective.1 .SDP31_500⟩

/-- C4: product ID 0x03010100 resolves to SDP31_500; a `begin` served that
    PID returns pressure range 500; the pressure scale is 60 and the
    temperature scale is 200. -/
theorem pid_03010100_scenario :
    pidToModel 0x03010100 = some .SDP31_500 ∧
    (begin infoTransport initSession).1 = .SDP_500 ∧
    (begin infoTransport initSession).2.1.number = some .SDP31_500 ∧
    getPressureScale .SDP31_500 = 60 ∧
    getTemperatureScale = 200 := by
  refine ⟨by decide, ?_, ?_, by decide, by decide⟩ <;> decide

/-- C5: every word received is checksum-validated: a response containing any
    word whose transmitted checksum differs from the computed CRC-8 makes
    `readMeasurement` return failure with no output produced, and a
    successful `readMeasurement` implies the full frame validated. -/
theorem readMeasurement_checksum_mandatory :
    (∀ (t : Transport) (s : Session) (wt ws : Bool) (bs : List Nat),
      t.readBytes s.addr (3 * wordCount wt ws) = some bs →
      checkWords bs = false →
      (readMeasurement t s wt ws).1 = none) ∧
    (∀ (t : Transport) (s : Session) (wt ws : Bool) (m : Measurement)
        (as : List BusAction),
      readMeasurement t s wt ws = (some m, as) →
      ∃ bs, t.readBytes s.addr (3 * wordCount wt ws) = some bs ∧
            checkWords bs = true ∧ bs.length = 3 * wordCount wt ws) := by
  constructor
  · intro t s wt ws bs hr hc
    simp [readMeasurement, readData, hr, hc]
  · intro t s wt ws m as h
    rcases hr : t.readBytes s.addr (3 * wordCount wt ws) with _ | bs
    · exfalso
      simp [readMeasurement, readData, hr] at h
    · by_cases hlen : bs.length = 3 * wordCount wt ws
      · by_cases hck : checkWords bs = true
        · exact ⟨bs, rfl, hck, hlen⟩
        · exfalso
          simp [readMeasurement, readData, hr, hlen, hck] at h
      · exfalso
        simp [readMeasurement, readData, hr, hlen] at h

/-- Witness for C5: a concrete corrupted frame fails. -/
theorem readMeasurement_checksum_mandatory_witness :
    checkWords [0x03, 0x01, 0x00] = false ∧
    (readMeasurement badCrcTransport idleSession false false).1 = none :=
  ⟨by decide,
   readMeasurement_checksum_mandatory.1 badCrcTransport idleSession false false
     [0x03, 0x01, 0x00] rfl (by decide)⟩

/-- C6: `readProductID` issues the two read-product-info opcodes as two
    separate writes then one read of 18 bytes (6 when the serial number is
    not requested); on success the product ID is the first two data words and
    the serial the last four; and any failure makes `begin` return `SDP_NA`
    with the session unchanged, no model resolved. -/
theorem begin_reads_product_info :
    ∀ (t : Transport) (s : Session) (wantSerial : Bool),
      (t.writeOk s.addr ReadInfo1 = true → t.writeOk s.addr ReadInfo2 = true →
        (readProductID t s wantSerial).2 =
          [.write s.addr ReadInfo1, .write s.addr ReadInfo2,
           .read s.addr (if wantSerial then 18 else 6)]) ∧
      (t.writeOk s.addr ReadInfo1 = true → t.writeOk s.addr ReadInfo2 = true →
        ∀ bs, t.readBytes s.addr 18 = some bs → bs.length = 18 →
          checkWords bs = true →
          (readProductID t s true).1 =
            some ((dataWords bs).getD 0 0 * 0x10000 + (dataWords bs).getD 1 0,
              some ((dataWords bs).getD 2 0 * 2^48 + (dataWords bs).getD 3 0 * 2^32 +
                    (dataWords bs).getD 4 0 * 2^16 + (dataWords bs).getD 5 0))) ∧
      ((readProductID t s false).1 = none →
        begin t s = (.SDP_NA, s, (readProductID t s false).2)) := by
  intro t s wantSerial
  refine ⟨?_, ?_, ?_⟩
  · intro h1 h2
    have hact := readData_snd t s.addr (if wantSerial then 6 else 2)
    rcases hrd : readData t s.addr (if wantSerial then 6 else 2) with ⟨r, as⟩
    rw [hrd] at hact
    unfold readProductID writeCommand
    rcases r with _ | bs <;> cases wantSerial <;> simp_all
  · intro h1 h2 bs hr hlen hck
    unfold readProductID writeCommand readData
    simp [h1, h2, hr, hlen, hck]
  · intro hfail
    unfold begin
    rcases h : readProductID t s false with ⟨r, as⟩
    rw [h] at hfail
    simp at hfail
    subst hfail
    simp [h]

/-- Witness for C6: the concrete product-info frame resolves PID 0x03010100
    and serial 0, and the action trace is the two writes then an 18-byte
    read. -/
theorem begin_reads_product_info_witness :
    (readProductID infoTransport initSession true).1 = some (0x03010100, some 0) ∧
    (readProductID infoTransport initSession true).2 =
      [.write Address1 ReadInfo1, .write Address1 ReadInfo2, .read Address1 18] := by
  have h := begin_reads_product_info infoTransport initSession true
  have h2 := h.2.1 rfl rfl infoBytes rfl (by decide) (by decide)
  have h1 := h.1 rfl rfl
  exact ⟨by rw [h2]; decide, by rw [h1]; decide⟩

/-- C7: `stopContinuous` called while the state is Idle still issues the
    stop-continuous write, returns true (when the write is acknowledged) and
    leaves the state Idle — it is idempotent. -/
theorem stopContinuous_idempotent_from_idle :
    ∀ (t : Transport) (s : Session), s.state = .Idle →
      t.writeOk s.addr StopCont = true →
      stopContinuous t s = (true, s, [.write s.addr StopCont]) := by
  intro t s hs hw
  unfold stopContinuous writeCommand
  simp [hw]
  cases s
  cases hs
  rfl

/-- Witness for C7 on a concrete idle session. -/
theorem stopContinuous_idempotent_from_idle_witness :
    idleSession.state = .Idle ∧
    stopContinuous ackTransport idleSession =
      (true, idleSession, [.write Address1 StopCont]) :=
  ⟨rfl, stopContinuous_idempotent_from_idle ackTransport idleSession rfl rfl⟩

/-- C8: `reset` writes the soft-reset opcode to broadcast address 0x00 — and
    nothing else — for every session, regardless of its configured address,
    and returns the acknowledgement of that broadcast write. -/
theorem reset_targets_broadcast :
    ∀ (t : Transport) (s : Session),
      (reset t s).2 = [.write 0x00 SoftReset] ∧
      (reset t s).1 = t.writeOk 0x00 SoftReset :=
  fun _ _ => ⟨rfl, rfl⟩

/-- C9: `readPressure` is extensionally equal to `readMeasurement` with only
    pressure requested: same success/failure, same pressure value, same bus
    actions; and the measurement then carries no temperature or scale. -/
theorem readPressure_refines_readMeasurement :
    ∀ (t : Transport) (s : Session),
      (readPressure t s).1 =
        Option.map Measurement.pressure (readMeasurement t s false false).1 ∧
      (readPressure t s).2 = (readMeasurement t s false false).2 ∧
      (∀ m, (readMeasurement t s false false).1 = some m →
        m.temp = none ∧ m.scale = none) := by
  intro t s
  rcases hrd : readData t s.addr 1 with ⟨_ | bs, as⟩ <;>
    refine ⟨?_, ?_, ?_⟩ <;>
      simp_all [readPressure, readMeasurement, wordCount, hrd]

/-- Witness for C9 on a concrete one-word frame. -/
theorem readPressure_refines_readMeasurement_witness :
    (readPressure measTransport idleSession).1 =
      Option.map Measurement.pressure
        (readMeasurement measTransport idleSession false false).1 ∧
    (Measurement.temp { pressure := 769, temp := none, scale := none } = none ∧
     Measurement.scale { pressure := 769, temp := none, scale := none } = none) :=
  ⟨(readPressure_refines_readMeasurement measTransport idleSession).1,
   (readPressure_refines_readMeasurement measTransport idleSession).2.2
     { pressure := 769, temp := none, scale := none } (by decide)⟩

/-- C10: the pressure range SDP_250 is unreachable: the derived range of
    every model is 125 or 500, and `begin` only ever returns SDP_NA, SDP_125 or
    SDP_500. -/
theorem sdp250_unreachable :
    (∀ m : Model, modelToRange m = .SDP_125 ∨ modelToRange m = .SDP_500) ∧
    (∀ (t : Transport) (s : Session),
      (begin t s).1 = .SDP_NA ∨ (begin t s).1 = .SDP_125 ∨
      (begin t s).1 = .SDP_500) := by
  constructor
  · intro m
    cases m <;> simp [modelToRange]
  · intro t s
    unfold begin
    rcases h : readProductID t s false with ⟨_ | ⟨pid, ser⟩, as⟩
    · simp
    · rcases hm : pidToModel pid with _ | m
      · simp [hm]
      · cases m <;> simp [hm, modelToRange]

end SDP
